import Mathlib

/-!
Verification development for the goustomagic repository, centred on
`import_to_mealie.py`: the quantity/unit parser, the food-name normalizer,
the food entity resolver, the ingredient merge engine and the per-document
orchestration of the importer.  String-processing code in the source is driven by
Python `re` patterns; those patterns are embedded through a small
backtracking pattern matcher (fuel-based, so every definition is a plain
structural recursion that the kernel can evaluate).  Quantities (Python
floats holding small exact decimal values) are modelled as exact fractions
carried as integer pairs, with `Frac.val` giving the rational value.
-/

/-! ## Basic character and string helpers (Python `str` operations) -/

def isSpaceChB (c : Char) : Bool :=
  c = ' ' || c = '\t' || c = '\n' || c = '\r' || c = '\x0b' || c = '\x0c'

def isAsciiDigitB (c : Char) : Bool := '0' ≤ c && c ≤ '9'

def isAsciiAlphaB (c : Char) : Bool := ('a' ≤ c && c ≤ 'z') || ('A' ≤ c && c ≤ 'Z')

/-- Python word character for the purpose of the word boundary assertion. -/
def isWordCharB (c : Char) : Bool := isAsciiAlphaB c || isAsciiDigitB c || c = '_'

def lowerL (l : List Char) : List Char := l.map Char.toLower

/-- Python `str.strip()` (whitespace both sides). -/
def trimWS (l : List Char) : List Char :=
  ((l.dropWhile isSpaceChB).reverse.dropWhile isSpaceChB).reverse

/-- Python `str.rstrip()` on whitespace. -/
def rstripWS (l : List Char) : List Char :=
  (l.reverse.dropWhile isSpaceChB).reverse

/-- Python `s.rstrip(",")`. -/
def rstripComma (l : List Char) : List Char :=
  (l.reverse.dropWhile (· = ',')).reverse

/-- Python `s.replace(old, new)` for a single-character pair. -/
def replChar (a b : Char) (l : List Char) : List Char :=
  l.map (fun c => if c = a then b else c)

def startsWithL (n h : List Char) : Bool :=
  match n, h with
  | [], _ => true
  | _ :: _, [] => false
  | a :: n', b :: h' => a = b && startsWithL n' h'

/-- Python substring containment (`needle in hay`). -/
def containsSub (n : List Char) : List Char → Bool
  | [] => startsWithL n []
  | c :: t => startsWithL n (c :: t) || containsSub n t

/-- Python `s.replace(old, "", 1)`: delete the first occurrence of a substring. -/
def replaceFirstSub (n : List Char) : List Char → List Char
  | [] => []
  | c :: t => if startsWithL n (c :: t) && n ≠ [] then (c :: t).drop n.length
              else c :: replaceFirstSub n t

def splitWSGo : List Char → List Char → List (List Char)
  | [], cur => if cur = [] then [] else [cur.reverse]
  | c :: t, cur =>
      if isSpaceChB c then
        (if cur = [] then splitWSGo t [] else cur.reverse :: splitWSGo t [])
      else splitWSGo t (c :: cur)

/-- Python `str.split()` (split on whitespace runs, no empty fields). -/
def splitWS (l : List Char) : List (List Char) := splitWSGo l []

def capitalizeHead (l : List Char) : List Char :=
  match l with
  | [] => []
  | c :: t => c.toUpper :: t

/-! ## Exact numeric values

Python-float quantities in the source only ever hold small exact decimal
values, combined by `*`, `/`, `+` and compared for equality and sign.  They
are modelled as exact fractions.  To keep every definition evaluable by the
kernel (`Rat` arithmetic is not), a value is carried as an unnormalized
numerator/denominator pair of integers; `Frac.val` maps it to the rational
it denotes.  Every denominator the embedding produces is nonzero (numerals
yield powers of ten, and the only division is guarded by a zero test), so
the comparisons below agree with value comparisons. -/

def Frac : Type := Int × Int

instance : DecidableEq Frac := inferInstanceAs (DecidableEq (Int × Int))

instance : Repr Frac := inferInstanceAs (Repr (Int × Int))

/-- The rational value a pair denotes. -/
def Frac.val (p : Frac) : ℚ := (p.1 : ℚ) / (p.2 : ℚ)

def Frac.one : Frac := (1, 1)

/-- Value equality of fractions (cross multiplication; exact for the
nonzero denominators this development produces). -/
def Frac.beq (a b : Frac) : Bool := a.1 * b.2 == b.1 * a.2

def Frac.mul (a b : Frac) : Frac := (a.1 * b.1, a.2 * b.2)

def Frac.add (a b : Frac) : Frac := (a.1 * b.2 + b.1 * a.2, a.2 * b.2)

def Frac.div (a b : Frac) : Frac := (a.1 * b.2, a.2 * b.1)

def Frac.neg (a : Frac) : Frac := (-a.1, a.2)

/-- Value-level `= 0` (the Python `float(denom) == 0` situation). -/
def Frac.isZero (a : Frac) : Bool := a.1 == 0

/-- Value-level `> 0`. -/
def Frac.pos (a : Frac) : Bool := 0 < a.1 * a.2

/-! ## Numerals (Python `float(...)` on the tokens the source feeds it) -/

def natOfDigits (l : List Char) : Nat :=
  l.foldl (fun a c => a * 10 + (c.toNat - 48)) 0

/-- Value of a numeral of shape `\d+(\.\d+)?` (what the regex groups capture).
Returns `none` on any other shape (the `except ValueError` branches). -/
def parseNumStr (l : List Char) : Option Frac :=
  let ip := l.takeWhile isAsciiDigitB
  let rest := l.drop ip.length
  if ip = [] then none
  else match rest with
    | [] => some ((natOfDigits ip : Int), 1)
    | '.' :: fr =>
        if fr ≠ [] && fr.all isAsciiDigitB then
          some ((natOfDigits ip * 10 ^ fr.length + natOfDigits fr : Int), (10 ^ fr.length : Nat))
        else none
    | _ => none

def floatCore (l : List Char) : Option Frac :=
  let ip := l.takeWhile isAsciiDigitB
  let rest := l.drop ip.length
  match rest with
  | [] => if ip = [] then none else some ((natOfDigits ip : Int), 1)
  | '.' :: fr =>
      if fr.all isAsciiDigitB && (ip ≠ [] || fr ≠ []) then
        some ((natOfDigits ip * 10 ^ fr.length + natOfDigits fr : Int), (10 ^ fr.length : Nat))
      else none
  | _ => none

/-- Python `float(s)` restricted to the decimal forms occurring in labels
(optional sign, digits with an optional point; no exponents). -/
def floatPy (l : List Char) : Option Frac :=
  match trimWS l with
  | '-' :: r => (floatCore r).map Frac.neg
  | '+' :: r => floatCore r
  | t => floatCore t

/-! ## A small backtracking matcher for the `re` patterns used by the source

Quantifiers in the source's patterns only ever apply to single character
classes, alternations are finite lists of branches, and groups never nest,
so this restricted shape covers every pattern verbatim.  Matching is
leftmost (scan positions left to right), greedy with backtracking, and
alternatives are tried in written order — the semantics of Python `re`. -/

inductive Quant where
  | one
  | star
  | plus
deriving Repr, DecidableEq

inductive RItem where
  /-- a character class with a quantifier -/
  | cls (p : Char → Bool) (q : Quant)
  /-- a case-insensitive literal -/
  | litci (w : List Char)
  /-- ordered alternatives (an optional part is `alt [body, []]`) -/
  | alt (cs : List (List RItem))
  /-- start of capturing group `i` -/
  | gstart (i : Nat)
  /-- end of capturing group `i` -/
  | gend (i : Nat)
  /-- word boundary assertion -/
  | wb
  /-- negative lookahead on a single character class -/
  | nla (p : Char → Bool)
  /-- end of input (the `$` anchor) -/
  | eos

/-- Matcher state: open capture groups (index, remainder at group start) and
finished captures. -/
structure MSt where
  opens : List (Nat × List Char)
  caps : List (Nat × List Char)

def isWordOpt (c : Option Char) : Bool :=
  match c with
  | some c => isWordCharB c
  | none => false

def isWordHead (l : List Char) : Bool :=
  match l with
  | c :: _ => isWordCharB c
  | [] => false

/-- Consume a case-insensitive literal, tracking the last consumed character. -/
def dropLitCI : List Char → Option Char → List Char → Option (Option Char × List Char)
  | [], last, rem => some (last, rem)
  | c :: w', _last, rem =>
      match rem with
      | r :: t => if r.toLower = c.toLower then dropLitCI w' (some r) t else none
      | [] => none

mutual

/-- Match a sequence of items against `rem` (anchored), `prev` being the
character just before the current position.  Returns the rest of the input
after the match together with the capture state, preferring greedy/first
alternatives exactly as the Python engine does. -/
def matchSeq (fuel : Nat) (rs : List RItem) (prev : Option Char) (rem : List Char)
    (st : MSt) : Option (List Char × MSt) :=
  match fuel with
  | 0 => none
  | fuel + 1 =>
    match rs with
    | [] => some (rem, st)
    | r :: rest =>
      match r with
      | .cls p q =>
        match q with
        | .one =>
            match rem with
            | c :: t => if p c then matchSeq fuel rest (some c) t st else none
            | [] => none
        | .plus =>
            match rem with
            | c :: t => if p c then matchStar fuel p rest (some c) t st else none
            | [] => none
        | .star => matchStar fuel p rest prev rem st
      | .litci w =>
          match dropLitCI w prev rem with
          | some (last, t) => matchSeq fuel rest last t st
          | none => none
      | .alt cs => matchAlt fuel cs rest prev rem st
      | .gstart i => matchSeq fuel rest prev rem ⟨(i, rem) :: st.opens, st.caps⟩
      | .gend _ =>
          match st.opens with
          | (j, startRem) :: os =>
              let cap := startRem.take (startRem.length - rem.length)
              matchSeq fuel rest prev rem ⟨os, (j, cap) :: st.caps⟩
          | [] => none
      | .wb =>
          if isWordOpt prev ≠ isWordHead rem then matchSeq fuel rest prev rem st else none
      | .nla p =>
          match rem with
          | c :: _ => if p c then none else matchSeq fuel rest prev rem st
          | [] => matchSeq fuel rest prev rem st
      | .eos =>
          match rem with
          | [] => matchSeq fuel rest prev [] st
          | _ => none

/-- Greedy star over a character class: consume as much as possible, giving
characters back one at a time when the continuation fails. -/
def matchStar (fuel : Nat) (p : Char → Bool) (rest : List RItem) (prev : Option Char)
    (rem : List Char) (st : MSt) : Option (List Char × MSt) :=
  match fuel with
  | 0 => none
  | fuel + 1 =>
    match rem with
    | c :: t =>
        if p c then
          (matchStar fuel p rest (some c) t st).orElse (fun _ => matchSeq fuel rest prev rem st)
        else matchSeq fuel rest prev rem st
    | [] => matchSeq fuel rest prev [] st

/-- Try alternatives in order (the Python engine also prefers earlier ones). -/
def matchAlt (fuel : Nat) (cs : List (List RItem)) (rest : List RItem) (prev : Option Char)
    (rem : List Char) (st : MSt) : Option (List Char × MSt) :=
  match fuel with
  | 0 => none
  | fuel + 1 =>
    match cs with
    | [] => none
    | c :: cs' =>
        (matchSeq fuel (c ++ rest) prev rem st).orElse
          (fun _ => matchAlt fuel cs' rest prev rem st)

end

/-- Fuel sufficient for the small patterns and short labels this development
evaluates (each scan position restarts with the full budget). -/
def engineFuel (s : List Char) : Nat := (s.length + 120) * (s.length + 120)

/-- Result of a successful search: text before the match, the matched text,
the capture state and the text after the match. -/
structure SearchRes where
  pre : List Char
  matched : List Char
  st : MSt
  post : List Char

def capOf (r : SearchRes) (i : Nat) : List Char :=
  ((r.st.caps.find? (fun p => p.1 == i)).map (·.2)).getD []

/-- Embeds `re.search`: try an anchored match at every position, left to right. -/
def searchFrom (fuel : Nat) (rs : List RItem) (prev : Option Char) (rem : List Char)
    (preAcc : List Char) : Option SearchRes :=
  match matchSeq fuel rs prev rem ⟨[], []⟩ with
  | some (post, st) =>
      some ⟨preAcc.reverse, rem.take (rem.length - post.length), st, post⟩
  | none =>
      match rem with
      | [] => none
      | c :: t => searchFrom fuel rs (some c) t (c :: preAcc)

def reSearch (rs : List RItem) (s : List Char) : Option SearchRes :=
  searchFrom (engineFuel s) rs none s []

/-- Embeds `re.match`: anchored at position 0 only. -/
def matchAt0 (rs : List RItem) (s : List Char) : Option SearchRes :=
  match matchSeq (engineFuel s) rs none s ⟨[], []⟩ with
  | some (post, st) => some ⟨[], s.take (s.length - post.length), st, post⟩
  | none => none

/-- Embeds `re.sub` of a `^`-anchored pattern with an empty replacement (such a
pattern can only ever match once, at position 0). -/
def subAt0 (rs : List RItem) (s : List Char) : List Char :=
  match matchAt0 rs s with
  | some r => r.post
  | none => s

/-- Embeds `re.sub` with a replacement function: repeatedly find the leftmost match
and replace it, continuing after the replaced stretch.  `steps` bounds the
number of replacements (.length + 1 always suffices for the source's
non-empty-match patterns). -/
def subAll (steps : Nat) (rs : List RItem) (f : SearchRes → List Char) (prev : Option Char)
    (s : List Char) : List Char :=
  match steps with
  | 0 => s
  | k + 1 =>
    match searchFrom (engineFuel s) rs prev s [] with
    | none => s
    | some r =>
        if r.matched = [] then s
        else
          let consumed := r.pre ++ r.matched
          let prev' := match consumed.getLast? with
            | some c => some c
            | none => prev
          r.pre ++ f r ++ subAll k rs f prev' r.post

def subAllFull (rs : List RItem) (f : SearchRes → List Char) (s : List Char) : List Char :=
  subAll (s.length + 1) rs f none s

/-! ## The patterns of `import_to_mealie.py`, written as matcher items

Group numbering: 1 for the first capturing group of the pattern, 2 for the
second, 3 for the third (named groups in the source are referred to by
position). -/

def digitsP : RItem := RItem.cls isAsciiDigitB .plus

def dotP : RItem := RItem.cls (· = '.') .one

def slashP : RItem := RItem.cls (· = '/') .one

/-- Embeds `\d+(?:\.\d+)?` -/
def numP : List RItem := [digitsP, RItem.alt [[dotP, digitsP], []]]

def ws0 : RItem := RItem.cls isSpaceChB .star

def ws1 : RItem := RItem.cls isSpaceChB .plus

def lettersP : RItem := RItem.cls isAsciiAlphaB .plus

/-- Embeds `[x×]` under `re.IGNORECASE` -/
def xP : RItem := RItem.cls (fun c => c = 'x' || c = 'X' || c = '×') .one

def lpP : RItem := RItem.cls (· = '(') .one

def rpP : RItem := RItem.cls (· = ')') .one

def grpP (i : Nat) (body : List RItem) : List RItem :=
  RItem.gstart i :: body ++ [RItem.gend i]

/-- Embeds `(?:w1|w2|...)` over literal words, case-insensitively. -/
def wordsP (ws : List String) : RItem := RItem.alt (ws.map (fun w => [RItem.litci w.data]))

/-- Embeds `[x×]\s*(\d+(?:\.\d+)?)\s*$` (in `_extract_multiplier`). -/
def extractMultPat : List RItem := [xP, ws0] ++ grpP 1 numP ++ [ws0, RItem.eos]

/-- Embeds `(?P<count>\d+(?:\.\d+)?)\s*[x×]\s*(?P<num>\d+(?:\.\d+)?)(?P<unit>[a-zA-Z]+)`
(the count × weight pattern of `parse_quantity_and_unit`). -/
def multiPat : List RItem :=
  grpP 1 numP ++ [ws0, xP, ws0] ++ grpP 2 numP ++ grpP 3 [lettersP]

/-- Embeds `\((?P<num>\d+(?:\.\d+)?)\s*(?P<unit>[a-zA-Z]+)\)` -/
def parenNumUnitPat : List RItem :=
  [lpP] ++ grpP 1 numP ++ [ws0] ++ grpP 2 [lettersP] ++ [rpP]

/-- Embeds `^(?P<num>\d+(?:\.\d+)?)(?P<unit>[a-zA-Z]+)$`, used with `re.match`. -/
def firstTokenPat : List RItem := grpP 1 numP ++ grpP 2 [lettersP] ++ [RItem.eos]

/-- Embeds `(?P<num>\d+(?:\.\d+)?)\s*(?P<unit>[a-zA-Z]+)` (last-resort fallback). -/
def fallbackPat : List RItem := grpP 1 numP ++ [ws0] ++ grpP 2 [lettersP]

/-- The fixed unit alias table of `parse_quantity_and_unit`, in source order. -/
def unitAliasPairs : List (String × String) :=
  [("g", "gram"), ("gram", "gram"), ("grams", "gram"),
   ("kg", "kilogram"), ("kilogram", "kilogram"), ("kilograms", "kilogram"),
   ("ml", "milliliter"), ("milliliter", "milliliter"), ("milliliters", "milliliter"),
   ("l", "liter"), ("liter", "liter"), ("litre", "liter"), ("liters", "liter"),
   ("litres", "liter"),
   ("tsp", "teaspoon"), ("teaspoon", "teaspoon"), ("teaspoons", "teaspoon"),
   ("tbsp", "tablespoon"), ("tablespoon", "tablespoon"), ("tablespoons", "tablespoon"),
   ("clove", "clove"), ("cloves", "clove"),
   ("pinch", "pinch"), ("pinches", "pinch"),
   ("cup", "cup"), ("cups", "cup"),
   ("pack", "pack"), ("packet", "pack"), ("packets", "pack"),
   ("tin", "tin"), ("tins", "tin"),
   ("can", "can"), ("cans", "can"),
   ("cm", "centimeter"),
   ("slice", "slice"), ("slices", "slice"),
   ("piece", "piece"), ("pieces", "piece"),
   ("bunch", "bunch"), ("bunches", "bunch")]

/-- Embeds `unit_aliases.get(token.lower())`. -/
def aliasLookup (tok : List Char) : Option String :=
  (unitAliasPairs.find? (fun p => p.1 == String.mk (lowerL tok))).map (·.2)

def salmonChars : List Char := "salmon".data

/-- Embeds `"salmon" in label.lower()`. -/
def salmonIn (label : String) : Bool := containsSub salmonChars (lowerL label.data)

/-! ## `_extract_multiplier` and `parse_quantity_and_unit` -/

/-- Embeds `_extract_multiplier(label)`: a trailing multiplier such as `"x2"`. -/
def extractMultiplier (label : String) : Option Frac :=
  if label = "" then none
  else match reSearch extractMultPat label.data with
    | some r => parseNumStr (capOf r 1)
    | none => none

/-- Embeds `first.split("/", 1)[0]`: the part before the first slash. -/
def fracNumPart (first : List Char) : List Char := first.takeWhile (· ≠ '/')

/-- Embeds `first.split("/", 1)[1]`: the part after the first slash. -/
def fracDenPart (first : List Char) : List Char :=
  (first.drop (fracNumPart first).length).drop 1

/-- The `else` branch of the first-token stage: simple fractions like `1/2`
via `float(num) / float(denom)`, a bare `float(first)` otherwise; both
`ValueError` and `ZeroDivisionError` yield no quantity. -/
def elseBranchQty (first : List Char) : Option Frac :=
  if first.contains '/' then
    match floatPy (fracNumPart first), floatPy (fracDenPart first) with
    | some a, some b => if b.isZero then none else some (a.div b)
    | _, _ => none
  else floatPy first

/-- Embeds `parse_quantity_and_unit` up to the point where `qty` and `unit_token`
are finalized (everything before the unit-resolution block). -/
def parseQtyToken (label : String) : Option Frac × Option (List Char) :=
  if label = "" then (none, none)
  else
    let L := label.data
    let labelMultiplier := extractMultiplier label
    -- count × weight patterns such as "2 x 110g salmon fillets"
    let s1 : Option Frac × Option (List Char) × Bool :=
      match reSearch multiPat L with
      | some r =>
          match parseNumStr (capOf r 1) with
          | some c => (some c, if salmonIn label then some (capOf r 3) else none, true)
          | none => (none, none, false)
      | none => (none, none, false)
    match s1 with
    | (qty0, tok0, lock) =>
      -- label multiplier alongside a parenthesized base weight
      let s2 : Option Frac × Option (List Char) :=
        if !lock && labelMultiplier.isSome then
          match reSearch parenNumUnitPat L with
          | some r =>
              match parseNumStr (capOf r 1) with
              | some v => (some v, some (capOf r 2))
              | none => (qty0, tok0)
          | none => (qty0, tok0)
        else (qty0, tok0)
      match s2 with
      | (qty1, tok1) =>
        let lock := lock || (!lock && labelMultiplier.isSome &&
          (match reSearch parenNumUnitPat L with
           | some r => (parseNumStr (capOf r 1)).isSome
           | none => false))
        -- first whitespace-separated token
        let parts := splitWS (trimWS L)
        let s3 : Option Frac × Option (List Char) × Option Frac :=
          match qty1, parts with
          | none, first0 :: restParts =>
              let first1 := replChar '×' 'x' (rstripComma first0)
              let first :=
                if first1.getLast? = some 'x' && first1.length > 1 then first1.dropLast
                else first1
              let s3a : Option Frac × Option (List Char) :=
                match matchAt0 firstTokenPat first with
                | some r => (parseNumStr (capOf r 1), some (capOf r 2))
                | none =>
                    match elseBranchQty first with
                    | some v =>
                        (some v,
                         match restParts with
                         | p1 :: _ => some (rstripComma p1)
                         | [] => tok1)
                    | none => (none, tok1)
              match s3a with
              | (q2, t2) =>
                  let cm : Option Frac :=
                    if !lock && q2.isSome &&
                        (match t2 with
                         | none => true
                         | some t => (aliasLookup t).isNone) then q2
                    else none
                  (q2, t2, cm)
          | _, _ => (qty1, tok1, none)
        match s3 with
        | (qty2, tok2, cm0) =>
          -- a token that is not a recognized unit is dropped
          let s4 : Option (List Char) × Option Frac :=
            match tok2 with
            | some t =>
                if t ≠ [] && (aliasLookup t).isNone then
                  (none, if cm0.isNone && qty2.isSome then qty2 else cm0)
                else (some t, cm0)
            | none => (none, cm0)
          match s4 with
          | (tok3, cm) =>
            -- explicit bracketed quantity/unit such as "(15g)"
            let s5 : Option Frac × Option (List Char) × Bool :=
              if !lock && (qty2.isNone || tok3.isNone) then
                match reSearch parenNumUnitPat L with
                | some r =>
                    let q := parseNumStr (capOf r 1)
                    let t := some (capOf r 2)
                    match cm, q with
                    | some c, some v =>
                        if !(c.beq Frac.one) then (some (v.mul c), t, true) else (q, t, false)
                    | _, _ => (q, t, false)
                | none => (qty2, tok3, false)
              else (qty2, tok3, false)
            match s5 with
            | (qty3, tok4, mapplied) =>
              -- fallback: any number+unit combo anywhere in the label
              let s6 : Option Frac × Option (List Char) :=
                if !lock && (qty3.isNone || tok4.isNone) then
                  match reSearch fallbackPat L with
                  | some r => (parseNumStr (capOf r 1), some (capOf r 2))
                  | none => (qty3, tok4)
                else (qty3, tok4)
              match s6 with
              | (qty4, tok5) =>
                let qty5 :=
                  match cm, qty4 with
                  | some c, some v =>
                      if !lock && !mapplied && !(v.beq c) then some (v.mul c) else qty4
                  | _, _ => qty4
                (qty5, tok5)

structure UnitE where
  id : Option String
  name : Option String
  pluralName : Option String
  abbreviation : Option String
  pluralAbbreviation : Option String
deriving Repr, DecidableEq

/-- Python truthiness of an optional string (`None` and `""` are falsy). -/
def optTruthy (o : Option String) : Bool :=
  match o with
  | some s => s ≠ ""
  | none => false

/-- Embeds `_category_key` / `_food_key` / `_unit_key` / `_tag_key`: trim and
lowercase.  Python returns `None` for a falsy input and may return `""` for
an all-whitespace one; both are falsy and every caller guards with
truthiness, so both are modelled as `none`. -/
def strKeyT (n : Option String) : Option String :=
  match n with
  | none => none
  | some s =>
      if s = "" then none
      else
        let k := String.mk (lowerL (trimWS s.data))
        if k = "" then none else some k

def cacheGet {α : Type} (c : List (String × α)) (k : String) : Option α :=
  (c.find? (fun p => p.1 == k)).map (·.2)

/-- The unit-resolution block at the end of `parse_quantity_and_unit`:
alias the token, look it up in the unit cache (falling back to the raw
token key), and drop units that resolve to nothing or carry no id.  The
non-fatal warning emitted in the latter case is not modelled. -/
def resolveUnitToken (units : List (String × UnitE)) (tok : Option (List Char)) :
    Option UnitE :=
  match tok with
  | none => none
  | some t =>
      if t = [] then none
      else
        match aliasLookup t with
        | some aliasName =>
            let r0 := match strKeyT (some aliasName) with
              | some k => cacheGet units k
              | none => none
            let r1 := match r0 with
              | some u => some u
              | none =>
                  match strKeyT (some (String.mk t)) with
                  | some k => cacheGet units k
                  | none => none
            match r1 with
            | some u => if optTruthy u.id then some u else none
            | none => none
        | none => none

/-- Embeds `parse_quantity_and_unit(label)` (with the unit cache passed explicitly
in place of the `UNITS_BY_KEY` global). -/
def parseQuantityAndUnit (units : List (String × UnitE)) (label : String) :
    Option Frac × Option UnitE :=
  match parseQtyToken label with
  | (q, t) => (q, resolveUnitToken units t)

/-! ## `_clean_food_name`: its patterns -/

def fishKeywords : List String :=
  ["salmon", "haddock", "cod", "trout", "seabass", "sea bass", "bass", "hake",
   "tuna", "prawn", "prawns", "shrimp"]

def meatKeywords : List String :=
  ["chicken", "turkey", "duck", "beef", "pork", "lamb", "meatball", "sausage"]

/-- Embeds `\b(fillet|fillets|breast|thigh|steak|loin)\b` (searched with IGNORECASE). -/
def proteinPat : List RItem :=
  [RItem.wb, wordsP ["fillet", "fillets", "breast", "thigh", "steak", "loin"], RItem.wb]

def units5 : List String := ["g", "kg", "ml", "l", "cl"]

/-- Embeds `(?P<count>\d+(?:\.\d+)?)\s*[x×]\s*(?P<weight>\d+(?:\.\d+)?\s*(?:g|kg|ml|l|cl))` -/
def cwPat : List RItem :=
  grpP 1 numP ++ [ws0, xP, ws0] ++ grpP 2 (numP ++ [ws0, wordsP units5])

/-- Embeds `^(?P<weight>\d+(?:\.\d+)?\s*(?:g|kg|ml|l|cl))\b` (used with `re.match`). -/
def weightOnlyPat : List RItem := grpP 1 (numP ++ [ws0, wordsP units5]) ++ [RItem.wb]

def sizeUnits : List String :=
  ["g", "kg", "ml", "l", "cl", "oz", "lb", "lbs", "litre", "liter"]

/-- Embeds `\(\s*\d+(?:\.\d+)?\s*(?:g|kg|ml|l|cl|oz|lb|lbs|litre|liter)\s*\)` -/
def sizePat : List RItem :=
  [lpP, ws0] ++ numP ++ [ws0, wordsP sizeUnits, ws0, rpP]

/-- Embeds `\b(tin|tins|can|cans)\b` -/
def tinPat : List RItem := [RItem.wb, wordsP ["tin", "tins", "can", "cans"], RItem.wb]

def units12 : List String :=
  ["g", "kg", "ml", "l", "cl", "tsp", "tbsp", "cup", "cups", "oz", "lb", "lbs"]

/-- Embeds `^[0-9]+(?:\.\d+)?\s*[x×]\s*[0-9]+(?:\.\d+)?\s*(?:g|...|lbs)?\s*` -/
def sub1Pat : List RItem :=
  numP ++ [ws0, xP, ws0] ++ numP ++ [ws0, RItem.alt [[wordsP units12], []], ws0]

/-- Embeds `^[0-9]+(?:\.\d+|/[0-9]+)?(?:\s*(?:g|...|lbs)(?![a-zA-Z]))?\s*(?:x\s*)?` -/
def sub2Pat : List RItem :=
  [digitsP, RItem.alt [[dotP, digitsP], [slashP, digitsP], []],
   RItem.alt [[ws0, wordsP units12, RItem.nla isAsciiAlphaB], []],
   ws0, RItem.alt [[RItem.litci ['x']], []]]

/-- Embeds `\s*[x×]\s*\d+(?:\.\d+)?\s*$` -/
def sub3Pat : List RItem := [ws0, xP, ws0] ++ numP ++ [ws0, RItem.eos]

/-- Embeds `\(([^)]*)\)` -/
def parenPat : List RItem :=
  [lpP, RItem.gstart 1, RItem.cls (· ≠ ')') .star, RItem.gend 1, rpP]

def packWords : List String :=
  ["sachet", "sachets", "packet", "packets", "pack", "packs", "bag", "bags",
   "pot", "pots", "tub", "tubs", "pouch", "pouches", "tray", "trays"]

/-- Embeds `\b(sachet|...|trays)\b\.?$` -/
def packPat : List RItem :=
  [RItem.wb, wordsP packWords, RItem.wb, RItem.alt [[RItem.litci ['.']], []], RItem.eos]

def units18 : List String :=
  ["g", "kg", "ml", "l", "cl", "tsp", "tbsp", "cup", "cups", "oz", "lb", "lbs",
   "litre", "liter", "cm", "mm", "inch", "inches"]

/-- Embeds `^(?:\d+(?:\.\d+)?(?:\s*/\s*\d+(?:\.\d+)?)?(?:\s*(?:g|...|inches)(?![a-zA-Z]))?(?:\s*[x×]\s*)?)` -/
def sub6Pat : List RItem :=
  [digitsP, RItem.alt [[dotP, digitsP], []],
   RItem.alt [[ws0, slashP, ws0, digitsP, RItem.alt [[dotP, digitsP], []]], []],
   RItem.alt [[ws0, wordsP units18, RItem.nla isAsciiAlphaB], []],
   RItem.alt [[ws0, xP, ws0], []]]

/-- Embeds `\s+` -/
def wsPat : List RItem := [ws1]

/-- Embeds `^\d+(?:\.\d+)?(?:\s*/\s*\d+(?:\.\d+)?)?\s*(?:g|...|inches)\b` (on the
lowercased parenthetical content). -/
def cp1Pat : List RItem :=
  [digitsP, RItem.alt [[dotP, digitsP], []],
   RItem.alt [[ws0, slashP, ws0, digitsP, RItem.alt [[dotP, digitsP], []]], []],
   ws0, wordsP units18, RItem.wb]

/-- Embeds `^\d+(?:\.\d+)?\s*[x×]\s*\d+` -/
def cp2Pat : List RItem := numP ++ [ws0, xP, ws0, digitsP]

def cp3Words : List String :=
  ["pack", "packs", "packet", "packets", "bag", "bags", "pot", "pots", "tub",
   "tubs", "pouch", "pouches", "tray", "trays", "tin", "tins", "can", "cans",
   "pc", "pcs", "piece", "pieces"]

/-- Embeds `^\d+(?:\.\d+)?\s*(?:pack|...|pieces)\b` -/
def cp3Pat : List RItem := numP ++ [ws0, wordsP cp3Words, RItem.wb]

/-- Embeds `^\d+(?:\.\d+)?\s*$` -/
def cp4Pat : List RItem := numP ++ [ws0, RItem.eos]

/-! ## `_clean_food_name` -/

/-- The replacement function `_strip_packaging_parenthetical`: drop the
bracketed group when its content is purely quantity/packaging, keep it
otherwise. -/
def parenRepl (r : SearchRes) : List Char :=
  let content := lowerL (trimWS (capOf r 1))
  if content = [] then []
  else if (matchAt0 cp1Pat content).isSome then []
  else if (matchAt0 cp2Pat content).isSome then []
  else if (matchAt0 cp3Pat content).isSome then []
  else if (matchAt0 cp4Pat content).isSome then []
  else r.matched

/-- One pass of the final leading-token stripping loop. -/
def stripLeadingLoop : Nat → List Char → List Char
  | 0, t => t
  | k + 1, t =>
      let t' := trimWS (subAt0 sub6Pat t)
      if t' = t then t else stripLeadingLoop k t'

/-- Embeds `_clean_food_name(raw_name, label)`. -/
def cleanFoodName (rawName : Option String) (label : Option String) : Option String :=
  let base : String :=
    match label with
    | some l => if l ≠ "" then l else
        (match rawName with
         | some rn => if rn ≠ "" then rn else ""
         | none => "")
    | none =>
        match rawName with
        | some rn => if rn ≠ "" then rn else ""
        | none => ""
  let text0 := trimWS base.data
  -- count × weight or bare weight prefixes, with protein-specific re-attachment
  let step1 : Option (List Char) × List Char :=
    match reSearch cwPat text0 with
    | some r =>
        let count := rstripWS (capOf r 1)
        let weight := trimWS (capOf r 2)
        let remainder := trimWS (replaceFirstSub r.matched text0)
        let baseLower := lowerL remainder
        let isFish := fishKeywords.any (fun k => containsSub k.data baseLower)
        let isMeat := meatKeywords.any (fun k => containsSub k.data baseLower)
        let hasProtein := (reSearch proteinPat remainder).isSome
        if isFish && hasProtein then (some weight, remainder)
        else if isMeat || hasProtein then
          (some (count ++ (' ' :: 'x' :: ' ' :: []) ++ weight), remainder)
        else (none, remainder)
    | none =>
        match matchAt0 weightOnlyPat text0 with
        | some r =>
            let remaining := trimWS (text0.drop r.matched.length)
            let baseLower := lowerL remaining
            let isFish := fishKeywords.any (fun k => containsSub k.data baseLower)
            let hasProtein := (reSearch proteinPat remaining).isSome
            if isFish && hasProtein then (some (trimWS (capOf r 1)), remaining)
            else (none, remaining)
        | none => (none, text0)
  match step1 with
  | (packagingPre, text1) =>
    let sizeParen : Option (List Char) :=
      match reSearch sizePat text1 with
      | some r => some (trimWS r.matched)
      | none => none
    let hasTin := (reSearch tinPat text1).isSome
    if text1 = [] then none
    else
      let text2 := trimWS (subAt0 sub1Pat text1)
      let text3 := trimWS (subAt0 sub2Pat text2)
      let text4 := trimWS (subAllFull sub3Pat (fun _ => []) text3)
      let text5 := trimWS (subAllFull parenPat parenRepl text4)
      let text6 := trimWS (subAllFull packPat (fun _ => []) text5)
      let text7 := stripLeadingLoop (text6.length + 1) text6
      let text8 := subAllFull wsPat (fun _ => [' ']) text7
      let text9 :=
        match sizeParen with
        | some sp =>
            if hasTin && !containsSub (lowerL sp) (lowerL text8) then
              trimWS (text8 ++ ' ' :: sp)
            else text8
        | none => text8
      let text10 :=
        match packagingPre with
        | some pp => trimWS (pp ++ ' ' :: text9)
        | none => text9
      if text10 ≠ [] then some (String.mk (capitalizeHead text10))
      else
        match rawName with
        | some rn =>
            if rn ≠ "" then
              let cleaned := trimWS rn.data
              if cleaned ≠ [] then some (String.mk (capitalizeHead cleaned)) else none
            else none
        | none => none

/-! ## `_units_compatible` -/

/-- One iteration of the name/abbreviation key loop in `_units_compatible`:
both `_unit_key` values truthy and equal. -/
def unitKeyEq (x y : Option String) : Bool :=
  match strKeyT x, strKeyT y with
  | some a, some b => a == b
  | _, _ => false

/-- Embeds `_units_compatible(unit_a, unit_b)`.  A present unit dict (always a
non-empty server object in the pipeline) is `some`, Python `None` is `none`. -/
def unitsCompatible (a b : Option UnitE) : Bool :=
  match a, b with
  | none, none => true
  | some ua, some ub =>
      if optTruthy ua.id && optTruthy ub.id then ua.id == ub.id
      else if optTruthy ua.id || optTruthy ub.id then false
      else
        unitKeyEq ua.name ub.name ||
        unitKeyEq ua.abbreviation ub.abbreviation ||
        unitKeyEq ua.pluralName ub.pluralName ||
        unitKeyEq ua.pluralAbbreviation ub.pluralAbbreviation
  | _, _ => false

/-! ## The quantity combination of `build_recipe_ingredients`

For one (item, sku) pair the source computes the final quantity from the
parsed quantity of the label, the trailing label multiplier and the SKU
`quantities.in_box` value. -/

/-- Lines 684–707 of `build_recipe_ingredients`: a positive label multiplier
suppresses the SKU multiplier (the SKU becomes a factor of 1), a missing
base with any multiplier present assumes a base of 1. -/
def itemQuantity (label : String) (skuInBox : Option Frac) : Option Frac :=
  let parsedQty := (parseQtyToken label).fst
  let rawLabelMultiplier := extractMultiplier label
  let lmSku : Option Frac × Option Frac :=
    match rawLabelMultiplier with
    | some m =>
        if m.pos then (some m, if skuInBox.isSome then some Frac.one else none)
        else (none, skuInBox)
    | none => (none, skuInBox)
  match lmSku with
  | (labelMultiplier, skuQtyEffective) =>
    let baseQty : Option Frac :=
      match parsedQty with
      | some q => some q
      | none =>
          if labelMultiplier.isSome || skuQtyEffective.isSome then some Frac.one
          else none
    match baseQty with
    | some b =>
        let q1 := match labelMultiplier with
          | some m => b.mul m
          | none => b
        let q2 := match skuQtyEffective with
          | some s => q1.mul s
          | none => q1
        some q2
    | none => none

/-! ## The merge loop of `build_recipe_ingredients`

Inputs to the loop body are the per-item values the source has computed by
line 711: the normalized food key, the display text, the resolved food, the
final quantity, the resolved unit and the extracted reference id.  The
`recipe_ingredients` list and the `ingredients_by_key` map share mutable
entry dicts in the source; a single entry list carrying each entry's key
represents both (the map's bucket for `k` is the sublist with key `k`, in
insertion order). -/

structure Food where
  id : Option String
  name : Option String
  slug : Option String
deriving Repr, DecidableEq

structure ResolvedItem where
  key : Option String
  text : String
  food : Food
  quantity : Option Frac
  unit : Option UnitE
  refId : Option String
deriving Repr, DecidableEq

structure IngEntry where
  key : Option String
  text : String
  food : Food
  quantity : Option Frac
  unit : Option UnitE
  referenceId : Option String
deriving Repr, DecidableEq

/-- The freshly built ingredient dict (the `referenceId` key is only added
when the extracted reference id is truthy). -/
def mkEntry (r : ResolvedItem) : IngEntry :=
  { key := r.key, text := r.text, food := r.food, quantity := r.quantity,
    unit := r.unit,
    referenceId := if optTruthy r.refId then r.refId else none }

/-- Merging the new item's values into an existing compatible entry:
quantities are summed when the new quantity is present (a missing existing
quantity counts as 0), the reference id fills in only when the existing
entry lacks one. -/
def mergeEntry (e : IngEntry) (r : ResolvedItem) : IngEntry :=
  { e with
    quantity :=
      match r.quantity with
      | some q => some ((match e.quantity with
          | some eq0 => eq0
          | none => ((0 : Int), (1 : Int))).add q)
      | none => e.quantity,
    referenceId :=
      if optTruthy r.refId && !optTruthy e.referenceId then r.refId
      else e.referenceId }

/-- Find the first existing entry for the same key with a compatible unit
and merge into it; `none` when no entry merges. -/
def mergeInto (r : ResolvedItem) : List IngEntry → Option (List IngEntry)
  | [] => none
  | e :: rest =>
      if e.key == r.key && unitsCompatible e.unit r.unit then
        some (mergeEntry e r :: rest)
      else (mergeInto r rest).map (e :: ·)

/-- One iteration of the loop over `ordered_items` (from the `merged = False`
line onward). -/
def mergeStep (acc : List IngEntry) (r : ResolvedItem) : List IngEntry :=
  if optTruthy r.key then
    match mergeInto r acc with
    | some acc' => acc'
    | none => acc ++ [mkEntry r]
  else acc ++ [mkEntry r]

/-- The merge section of `build_recipe_ingredients` over the per-item
resolved values, in document order. -/
def buildIngredientEntries (rs : List ResolvedItem) : List IngEntry :=
  rs.foldl mergeStep []

/-! ## `ensure_food` and `load_existing_foods`

The remote API is an oracle recording, for each name, the status code and
body a `POST /foods` would return, together with the collection a reload
(`load_existing_foods`) would page in.  `ensure_food` is a function of the
cache, returning the food, the updated cache and the remote create/reload
requests it issued. -/

def cacheInsert {α : Type} (c : List (String × α)) (k : String) (v : α) :
    List (String × α) := (k, v) :: c

/-- The cache-building loop of `load_existing_foods`: skip entries whose id
was already seen, then index each food under its name key and slug key. -/
def loadFoodsStep (acc : List (String × Food) × List String) (food : Food) :
    List (String × Food) × List String :=
  let fid := food.id
  if optTruthy fid && acc.2.contains (fid.getD "") then acc
  else
    let seen := if optTruthy fid then fid.getD "" :: acc.2 else acc.2
    let c1 := match strKeyT food.name with
      | some k => cacheInsert acc.1 k food
      | none => acc.1
    let c2 := match strKeyT food.slug with
      | some k => cacheInsert c1 k food
      | none => c1
    (c2, seen)

def loadExistingFoods (collection : List Food) : List (String × Food) :=
  (collection.foldl loadFoodsStep ([], [])).1

inductive Req where
  | createFood (name : String)
  | reloadFoods
deriving Repr, DecidableEq

structure RemoteFoods where
  createStatus : String → Nat
  createBody : String → Food
  collection : List Food

/-- Embeds `ensure_food(session, base_url, name)`: cache hit returns the cached
food with no remote traffic; a cache miss issues a create; 200/201 inserts
the response body under its own name/slug keys; 400/409 reloads the whole
collection and retries the lookup once, raising (`Except.error`) when the
food is still absent; any other status raises. -/
def ensureFood (remote : RemoteFoods) (cache : List (String × Food)) (name : String) :
    Except String (Food × List (String × Food) × List Req) :=
  let nameKey := strKeyT (some name)
  let cached := match nameKey with
    | some k => cacheGet cache k
    | none => none
  match cached with
  | some f => .ok (f, cache, [])
  | none =>
      let status := remote.createStatus name
      if status ≠ 200 && status ≠ 201 then
        if status = 400 || status = 409 then
          let cache2 := loadExistingFoods remote.collection
          match (match nameKey with
                 | some k => cacheGet cache2 k
                 | none => none) with
          | some f => .ok (f, cache2, [.createFood name, .reloadFoods])
          | none =>
              .error ("food " ++ name ++ ": failed to create (" ++ toString status ++ ")")
        else .error ("food " ++ name ++ ": failed to create (" ++ toString status ++ ")")
      else
        let food := remote.createBody name
        let c1 := match strKeyT food.name with
          | some k => cacheInsert cache k food
          | none => cache
        let c2 := match strKeyT food.slug with
          | some k => cacheInsert c1 k food
          | none => c1
        .ok (food, c2, [.createFood name])

/-! ## `process_recipe_file` and `process_recipe_files`

The structural gate of `process_recipe_file`: an unreadable source JSON or
a missing title-derived slug fails the document before any category, food,
tag or recipe work.  Everything from the first `try` block on (entity
resolution, recipe fetch/create/update, uploads) touches the network and is
abstracted as an oracle `later` mapping the entry and slug to `none`
(success) or `some msg` (the error text that the orchestrator prefixes with
the file name); `slugify` is a third-party collaborator and is likewise a
parameter. -/

structure EntryDoc where
  title : Option String
deriving Repr, DecidableEq

inductive ReadResult where
  /-- the JSON loaded, giving the entry block -/
  | ok (entry : EntryDoc)
  /-- `json.load` raised; the exception text -/
  | failed (exc : String)
deriving Repr, DecidableEq

structure RecipeDoc where
  filename : String
  readResult : ReadResult
deriving Repr, DecidableEq

def processRecipeFile (slugF : String → String)
    (later : EntryDoc → String → Option String) (doc : RecipeDoc) : Option String :=
  match doc.readResult with
  | .failed e => some (doc.filename ++ ": failed to read (" ++ e ++ ")")
  | .ok entry =>
      let slugOpt : Option String :=
        match entry.title with
        | some t =>
            if t ≠ "" then
              let s := slugF t
              if s ≠ "" then some s else none
            else none
        | none => none
      match slugOpt with
      | none => some (doc.filename ++ ": canonical slug missing")
      | some slug =>
          match later entry slug with
          | none => none
          | some msg => some (doc.filename ++ ": " ++ msg)

/-- The sequential branch of `process_recipe_files`: every document is
processed, failures are collected as `(failed paths, error messages)` in
order. -/
def processRecipeFiles (slugF : String → String)
    (later : EntryDoc → String → Option String) (docs : List RecipeDoc) :
    List RecipeDoc × List String :=
  docs.foldl
    (fun acc doc =>
      match processRecipeFile slugF later doc with
      | some e => (acc.1 ++ [doc], acc.2 ++ [e])
      | none => acc)
    ([], [])

/-! ## Definitions used by the claim statements below -/

def exceptIsErr {α : Type} (e : Except String α) : Bool :=
  match e with
  | .error _ => true
  | .ok _ => false

/-- A remote whose food create always reports a 409 conflict while the
collection a reload would page in is empty. -/
def conflictEmptyRemote : RemoteFoods :=
  { createStatus := fun _ => 409,
    createBody := fun _ => ⟨none, none, none⟩,
    collection := [] }

def conflictStockedRemote : RemoteFoods :=
  { createStatus := fun _ => 409,
    createBody := fun _ => ⟨none, none, none⟩,
    collection := [⟨some "id1", some "Tomato", some "tomato"⟩] }

def c3item1 : ResolvedItem :=
  { key := some "cheddar", text := "40g cheddar",
    food := ⟨some "f1", some "Cheddar", some "cheddar"⟩,
    quantity := some (40, 1),
    unit := some ⟨some "u1", some "gram", none, none, none⟩,
    refId := some "aaaaaaaa-aaaa-aaaa-aaaa-aaaaaaaaaaaa" }

def c3item2 : ResolvedItem :=
  { key := some "cheddar", text := "20g cheddar",
    food := ⟨some "f1", some "Cheddar", some "cheddar"⟩,
    quantity := some (20, 1),
    unit := some ⟨some "u1", some "gram", none, none, none⟩,
    refId := some "bbbbbbbb-bbbb-bbbb-bbbb-bbbbbbbbbbbb" }

/-- The captured leading count of the count × weight pattern, when the
pattern matches the label. -/
def cwCount (label : String) : Option (List Char) :=
  (reSearch multiPat label.data).map (fun r => capOf r 1)

/-- The captured trailing unit token of the count × weight pattern. -/
def cwUnitTok (label : String) : Option (List Char) :=
  (reSearch multiPat label.data).map (fun r => capOf r 3)

/-- A batch of five documents in which document 3 has no title (so its
canonical slug is missing) and the others are well-formed. -/
def c8batch : List RecipeDoc :=
  [{ filename := "doc1.json", readResult := .ok ⟨some "Recipe One"⟩ },
   { filename := "doc2.json", readResult := .ok ⟨some "Recipe Two"⟩ },
   { filename := "doc3.json", readResult := .ok ⟨none⟩ },
   { filename := "doc4.json", readResult := .ok ⟨some "Recipe Four"⟩ },
   { filename := "doc5.json", readResult := .ok ⟨some "Recipe Five"⟩ }]

/-! ## Shared lemmas -/

theorem beqComm {α : Type} [BEq α] [LawfulBEq α] (x y : α) : (x == y) = (y == x) := by
  by_cases h : x = y
  · subst h; rfl
  · rw [beq_false_of_ne h, beq_false_of_ne (Ne.symm h)]

theorem unitKeyEq_comm (x y : Option String) : unitKeyEq x y = unitKeyEq y x := by
  unfold unitKeyEq
  cases strKeyT x <;> cases strKeyT y <;> simp [beqComm]

/-! ## Claims -/

/-- C10: the unit-compatibility relation used for merging is symmetric: for
all unit values a and b (each absent or a unit object),
`_units_compatible(a, b)` equals `_units_compatible(b, a)`, so whether two
ingredient mentions merge does not depend on which of the two is compared
first. -/
theorem c10_units_compatible_symm (a b : Option UnitE) :
    unitsCompatible a b = unitsCompatible b a := by
  cases a with
  | none => cases b with
    | none => rfl
    | some ub => rfl
  | some ua =>
    cases b with
    | none => rfl
    | some ub =>
      simp only [unitsCompatible]
      by_cases h1 : optTruthy ua.id = true <;> by_cases h2 : optTruthy ub.id = true <;>
        simp [h1, h2, beqComm, unitKeyEq_comm]

/-- C9: for every food name resolved against a cache that already holds its
normalized key (the cache hit path), `ensure_food` returns the identical
cached remote entity, leaves the cache unchanged and issues no create (or
any other) request. -/
theorem c9_cache_hit_idempotent (remote : RemoteFoods) (cache : List (String × Food))
    (name k : String) (f : Food)
    (hk : strKeyT (some name) = some k) (hhit : cacheGet cache k = some f) :
    ensureFood remote cache name = .ok (f, cache, []) := by
  unfold ensureFood
  rw [hk]
  simp [hhit]

/-- C9 witness. -/
theorem c9_cache_hit_idempotent_witness :
    ensureFood
        { createStatus := fun _ => 500, createBody := fun _ => ⟨none, none, none⟩,
          collection := [] }
        [("tomato", ⟨some "id1", some "Tomato", some "tomato"⟩)] "Tomato" =
      .ok (⟨some "id1", some "Tomato", some "tomato"⟩,
        [("tomato", ⟨some "id1", some "Tomato", some "tomato"⟩)], []) :=
  c9_cache_hit_idempotent _ _ "Tomato" "tomato" ⟨some "id1", some "Tomato", some "tomato"⟩
    (by decide) (by decide)

/-- C2 counterexample: with a 409 create conflict and a reload that does not
reveal the entity, `ensure_food` raises — a create conflict IS surfaced as
an error in that situation, contradicting the claim that it never is. -/
theorem c2_conflict_error_counterexample :
    conflictEmptyRemote.createStatus "tomato" = 409 ∧
    exceptIsErr (ensureFood conflictEmptyRemote [] "tomato") = true := by
  exact ⟨rfl, by decide⟩

/-- C2 (amended): on a 400/409 create conflict `ensure_food` reloads the
remote collection into the cache and retries the lookup once, returning the
pre-existing entity without raising when the reload reveals it; when the
entity is still absent after the reload, the create failure is surfaced as
an error (the create response is inserted under its own name/slug keys only
on a successful create, which a conflict is not). -/
theorem c2_conflict_reload_amended (remote : RemoteFoods) (cache : List (String × Food))
    (name k : String)
    (hk : strKeyT (some name) = some k)
    (hmiss : cacheGet cache k = none)
    (hconf : remote.createStatus name = 400 ∨ remote.createStatus name = 409) :
    (∀ f, cacheGet (loadExistingFoods remote.collection) k = some f →
        ensureFood remote cache name =
          .ok (f, loadExistingFoods remote.collection, [.createFood name, .reloadFoods])) ∧
    (cacheGet (loadExistingFoods remote.collection) k = none →
        exceptIsErr (ensureFood remote cache name) = true) := by
  unfold ensureFood
  rw [hk]
  simp only [hmiss]
  constructor
  · intro f hf
    rcases hconf with h | h <;> simp [h, hf]
  · intro h2
    rcases hconf with h | h <;> simp [h, h2, exceptIsErr]

/-- C2 witness: a 409 on a food create with the entity present remotely —
the resolver reloads the cache and returns the pre-existing entity without
raising. -/
theorem c2_conflict_reload_witness :
    ensureFood conflictStockedRemote [] "Tomato" =
      .ok (⟨some "id1", some "Tomato", some "tomato"⟩,
        loadExistingFoods conflictStockedRemote.collection,
        [.createFood "Tomato", .reloadFoods]) :=
  (c2_conflict_reload_amended conflictStockedRemote [] "Tomato" "tomato"
      (by decide) (by decide) (Or.inr rfl)).1
    ⟨some "id1", some "Tomato", some "tomato"⟩ (by decide)

/-- C1: for every ingredient item whose label carries a trailing multiplier
(a positive `_extract_multiplier` result) and whose matched portion SKU
carries an `in_box` quantity, only the label multiplier is applied: the
final quantity is the base amount (1 when the label parses no amount) times
the label multiplier times a SKU factor of exactly 1, and it does not
depend on the SKU's `in_box` value — the two multipliers are never both
applied. -/
theorem c1_label_multiplier_precedence (label : String) (m s : Frac)
    (hm : extractMultiplier label = some m) (hpos : m.pos = true) :
    itemQuantity label (some s) =
      some ((((parseQtyToken label).fst.getD Frac.one).mul m).mul Frac.one) ∧
    (∀ s', itemQuantity label (some s') = itemQuantity label (some s)) := by
  constructor
  · unfold itemQuantity
    rw [hm]
    simp only [hpos, if_true, Option.isSome_some]
    cases hp : (parseQtyToken label).fst <;> simp [hp]
  · intro s'
    unfold itemQuantity
    rw [hm]
    simp only [hpos, if_true, Option.isSome_some]

/-- C1 witness: base amount 100, label multiplier 2, SKU multiplier 3 —
final quantity 200, not 600, and the same quantity as with SKU multiplier
1. -/
theorem c1_label_multiplier_precedence_witness :
    extractMultiplier "100g cheese x2" = some (2, 1) ∧
    Frac.pos (2, 1) = true ∧
    itemQuantity "100g cheese x2" (some (3, 1)) = some (200, 1) ∧
    itemQuantity "100g cheese x2" (some (3, 1)) = itemQuantity "100g cheese x2" (some (1, 1)) ∧
    Frac.val (200, 1) = 200 ∧ (200 : ℚ) ≠ 600 := by
  have h := c1_label_multiplier_precedence "100g cheese x2" (2, 1) (3, 1)
    (by decide) (by decide)
  refine ⟨by decide, by decide, ?_, ?_, ?_, by norm_num⟩
  · rw [h.1]; decide
  · exact (h.2 (1, 1)).symm
  · show ((200 : Int) : ℚ) / ((1 : Int) : ℚ) = 200
    norm_num

/-- C3: two ingredient items in one document with the same truthy normalized
food key, units sharing the same (truthy) remote id and both carrying a
quantity merge into a single entry whose quantity is the sum of the two
quantities (also at the level of rational values) and whose display text is
the first item's; the first occurrence's reference id is kept and the
second item's reference id fills in only when the first lacks one. -/
theorem c3_merge_same_food_same_unit (r1 r2 : ResolvedItem) (k : String)
    (u1 u2 : UnitE) (d : String) (a b : Frac)
    (hk1 : r1.key = some k) (hk2 : r2.key = some k) (hk : k ≠ "")
    (hu1 : r1.unit = some u1) (hu2 : r2.unit = some u2)
    (hid1 : u1.id = some d) (hid2 : u2.id = some d) (hd : d ≠ "")
    (hq1 : r1.quantity = some a) (hq2 : r2.quantity = some b)
    (ha : a.2 ≠ 0) (hb : b.2 ≠ 0) :
    buildIngredientEntries [r1, r2] =
      [{ key := some k, text := r1.text, food := r1.food,
         quantity := some (a.add b), unit := some u1,
         referenceId :=
           if optTruthy r1.refId then r1.refId
           else if optTruthy r2.refId then r2.refId else none }] ∧
    Frac.val (a.add b) = Frac.val a + Frac.val b := by
  constructor
  · have hkey : optTruthy (some k) = true := by simp [optTruthy, hk]
    have hcompat : unitsCompatible (some u1) (some u2) = true := by
      simp [unitsCompatible, hid1, hid2, optTruthy, hd]
    unfold buildIngredientEntries
    simp only [List.foldl]
    rw [show mergeStep [] r1 = [mkEntry r1] by
      simp [mergeStep, hk1, hkey, mergeInto]]
    simp only [mergeStep, hk2, hkey, if_true]
    rw [show mergeInto r2 [mkEntry r1] = some [mergeEntry (mkEntry r1) r2] by
      simp [mergeInto, mkEntry, hk1, hk2, hu1, hu2, hcompat]]
    simp only [mergeEntry, mkEntry, hk1, hu1, hq1, hq2]
    by_cases h1 : optTruthy r1.refId = true
    · simp [h1]
    · cases hr1 : r1.refId with
      | none => simp [hr1, optTruthy]
      | some s =>
          have hs : s = "" := by
            rw [hr1] at h1
            by_contra hne
            exact h1 (by simp [optTruthy, hne])
          subst hs
          simp [hr1, optTruthy]
  · show ((a.1 * b.2 + b.1 * a.2 : Int) : ℚ) / ((a.2 * b.2 : Int) : ℚ) =
      (a.1 : ℚ) / (a.2 : ℚ) + (b.1 : ℚ) / (b.2 : ℚ)
    have ha' : ((a.2 : Int) : ℚ) ≠ 0 := Int.cast_ne_zero.mpr ha
    have hb' : ((b.2 : Int) : ℚ) ≠ 0 := Int.cast_ne_zero.mpr hb
    push_cast
    field_simp

/-- C3 witness: two mentions of the same food with the same remote unit id
merge into one entry with quantity 40 + 20 = 60, the first display text and
the first reference id. -/
theorem c3_merge_same_food_same_unit_witness :
    buildIngredientEntries [c3item1, c3item2] =
      [{ key := some "cheddar", text := "40g cheddar",
         food := ⟨some "f1", some "Cheddar", some "cheddar"⟩,
         quantity := some (60, 1),
         unit := some ⟨some "u1", some "gram", none, none, none⟩,
         referenceId := some "aaaaaaaa-aaaa-aaaa-aaaa-aaaaaaaaaaaa" }] ∧
    Frac.val (60, 1) = 60 := by
  have h := c3_merge_same_food_same_unit c3item1 c3item2 "cheddar"
    ⟨some "u1", some "gram", none, none, none⟩ ⟨some "u1", some "gram", none, none, none⟩
    "u1" (40, 1) (20, 1) rfl rfl (by decide) rfl rfl rfl rfl (by decide) rfl rfl
    (by decide) (by decide)
  constructor
  · rw [h.1]; decide
  · show ((60 : Int) : ℚ) / ((1 : Int) : ℚ) = 60
    norm_num

/-- C4 counterexample: `"2 x 110g cod fillets"` is a fish-protein label in
the sense of §4.2 (fish keyword "cod" plus fillet wording), its count ×
weight pattern matches with trailing unit "g", yet the parser assigns no
unit token — the unit token is not taken from the trailing unit for this
fish-protein case, contradicting the claim. -/
theorem c4_fish_unit_token_counterexample :
    "cod" ∈ fishKeywords ∧
    containsSub "cod".data (lowerL "2 x 110g cod fillets".data) = true ∧
    (reSearch proteinPat "2 x 110g cod fillets".data).isSome = true ∧
    cwUnitTok "2 x 110g cod fillets" = some "g".data ∧
    (parseQtyToken "2 x 110g cod fillets").snd = none ∧
    (parseQtyToken "2 x 110g cod fillets").fst = some (2, 1) := by
  refine ⟨by decide, by decide, by decide, by decide, by decide, by decide⟩

/-- C4 (amended): for every label containing a count × weight pattern,
`parse_quantity_and_unit` takes the leading count as the amount; the unit
token is taken from the trailing unit exactly when the label contains the
substring "salmon" (case-insensitively) — and it survives only when it is a
recognized unit alias; for every label without "salmon", including all
other fish or meat proteins with fillet/steak/loin wording, the pattern
assigns no unit token. -/
theorem c4_salmon_unit_token_amended (label : String) (c u : List Char) (cv : Frac)
    (hc : cwCount label = some c) (hcv : parseNumStr c = some cv)
    (hu : cwUnitTok label = some u) :
    (parseQtyToken label).fst = some cv ∧
    (salmonIn label = false → (parseQtyToken label).snd = none) ∧
    (salmonIn label = true → u ≠ [] → (aliasLookup u).isSome = true →
      (parseQtyToken label).snd = some u) := by
  have hlab : label ≠ "" := by
    intro h
    subst h
    have hnone : cwCount "" = none := by decide
    rw [hnone] at hc
    exact Option.noConfusion hc
  cases hrr : reSearch multiPat label.data with
  | none =>
      unfold cwCount at hc
      rw [hrr] at hc
      simp at hc
  | some r =>
      have hc1 : capOf r 1 = c := by
        unfold cwCount at hc
        rw [hrr] at hc
        simpa using hc
      have hu1 : capOf r 3 = u := by
        unfold cwUnitTok at hu
        rw [hrr] at hu
        simpa using hu
      have hpn : parseNumStr (capOf r 1) = some cv := by rw [hc1]; exact hcv
      refine ⟨?_, ?_, ?_⟩
      · unfold parseQtyToken
        rw [if_neg hlab]
        cases hsal : salmonIn label <;> simp [hrr, hpn, hsal]
        split <;> rfl
      · intro hsal
        unfold parseQtyToken
        rw [if_neg hlab]
        simp [hrr, hpn, hsal]
      · intro hsal hne halias
        have hnn : (aliasLookup u).isNone = false := by
          cases haL : aliasLookup u with
          | none => rw [haL] at halias; simp at halias
          | some al => simp
        unfold parseQtyToken
        rw [if_neg hlab]
        simp [hrr, hpn, hsal, hu1, hne, hnn]

/-- C4 witness: the salmon case — `"2 x 110g salmon fillets"` parses to the
leading count 2 with the trailing unit token "g". -/
theorem c4_salmon_unit_token_witness :
    (parseQtyToken "2 x 110g salmon fillets").fst = some (2, 1) ∧
    (parseQtyToken "2 x 110g salmon fillets").snd = some "g".data := by
  have h := c4_salmon_unit_token_amended "2 x 110g salmon fillets" "2".data "g".data
    (2, 1) (by decide) (by decide) (by decide)
  exact ⟨h.1, h.2.2 (by decide) (by decide) (by decide)⟩

/-- C5: evaluating the code at the claimed scenario.  The food name
normalizer does yield "Onion", but `parse_quantity_and_unit` on
`"1/2 onion"` returns amount 1 (value of the fraction 2/2), not the claimed
0.5: the fraction stage parses 0.5 and records it as a count multiplier,
then the last-resort fallback regex matches "2 onion" inside "1/2 onion"
(the denominator), overrides the amount with 2, drops "onion" as a
non-unit, and the final count-multiplier pass multiplies 2 × 0.5 = 1. -/
theorem c5_half_onion_eval :
    parseQuantityAndUnit [] "1/2 onion" = (some (2, 2), none) ∧
    Frac.val (2, 2) = 1 ∧
    (1 : ℚ) ≠ 1 / 2 ∧
    cleanFoodName none (some "1/2 onion") = some "Onion" := by
  refine ⟨by decide, ?_, by norm_num, by decide⟩
  show ((2 : Int) : ℚ) / ((2 : Int) : ℚ) = 1
  norm_num

/-- C6 counterexample: for the label `"(200g) tin chopped tomatoes"` the
cleaned name is not "Chopped tomatoes (200g)" — the word "tin" is detected
but never stripped (it is not a trailing packaging noun), so it stays at
the front of the cleaned name. -/
theorem c6_tin_tomatoes_counterexample :
    cleanFoodName none (some "(200g) tin chopped tomatoes") ≠
      some "Chopped tomatoes (200g)" := by
  decide

/-- C6 (amended): for the label `"(200g) tin chopped tomatoes"`, where a
tin/can word is detected and a size parenthetical exists, `_clean_food_name`
strips the packaging parenthetical and re-appends it, producing the cleaned
name "Tin chopped tomatoes (200g)" (the tin word itself is kept and
capitalized as the leading word). -/
theorem c6_tin_tomatoes_amended :
    cleanFoodName none (some "(200g) tin chopped tomatoes") =
      some "Tin chopped tomatoes (200g)" := by
  decide

/-- C7 counterexample: for `"1/0 onion"` the parser does not return "no
quantity": the fraction stage yields none, but the last-resort fallback
matches "0 onion" and the parser returns amount 0. -/
theorem c7_zero_denominator_counterexample :
    (parseQuantityAndUnit [] "1/0 onion").fst = some (0, 1) ∧
    (some ((0 : Int), (1 : Int)) : Option Frac) ≠ none := by
  refine ⟨by decide, by decide⟩

/-- C7 (amended): a leading simple fraction with a zero denominator never
raises — the fraction stage (the `else` branch of the first-token stage,
whose `ZeroDivisionError` is caught) yields no quantity — but the parser's
later fallback stages may still assign an amount: for `"1/0 onion"` the
parser returns amount 0 (from matching "0 onion") and no unit, while for a
bare `"1/0"` it returns no quantity and no unit. -/
theorem c7_zero_denominator_amended (first : List Char) (dv : Frac)
    (hslash : first.contains '/' = true)
    (hden : floatPy (fracDenPart first) = some dv)
    (hzero : dv.isZero = true) :
    elseBranchQty first = none ∧
    parseQuantityAndUnit [] "1/0 onion" = (some (0, 1), none) ∧
    parseQuantityAndUnit [] "1/0" = (none, none) := by
  refine ⟨?_, by decide, by decide⟩
  unfold elseBranchQty
  rw [if_pos hslash]
  cases hnum : floatPy (fracNumPart first) <;> simp [hnum, hden, hzero]

/-- C7 witness: the bare fraction `"1/0"`. -/
theorem c7_zero_denominator_witness :
    elseBranchQty "1/0".data = none ∧
    parseQuantityAndUnit [] "1/0 onion" = (some (0, 1), none) ∧
    parseQuantityAndUnit [] "1/0" = (none, none) := by
  have h := c7_zero_denominator_amended "1/0".data (0, 1) (by decide) (by decide) (by decide)
  exact ⟨h.1, h.2.1, h.2.2⟩

/-- C8: a document whose JSON cannot be read, or whose canonical
title-derived slug is missing, is reported failed with the structural
message and never enters the resolve or submit stages (the outcome is
independent of the later-stage oracle, which is therefore never consulted);
in a batch of five documents where document 3 fails structurally, the other
four succeed and the single failure message names the structural problem,
containing neither "resolve" nor "submit". -/
theorem c8_structural_failure :
    (∀ (slugF : String → String) (later1 later2 : EntryDoc → String → Option String)
        (name e : String),
        processRecipeFile slugF later1 ⟨name, .failed e⟩ =
          some (name ++ ": failed to read (" ++ e ++ ")") ∧
        processRecipeFile slugF later1 ⟨name, .failed e⟩ =
          processRecipeFile slugF later2 ⟨name, .failed e⟩) ∧
    (∀ (slugF : String → String) (later1 later2 : EntryDoc → String → Option String)
        (name : String),
        processRecipeFile slugF later1 ⟨name, .ok ⟨none⟩⟩ =
          some (name ++ ": canonical slug missing") ∧
        processRecipeFile slugF later1 ⟨name, .ok ⟨none⟩⟩ =
          processRecipeFile slugF later2 ⟨name, .ok ⟨none⟩⟩) ∧
    processRecipeFiles id (fun _ _ => none) c8batch =
      ([{ filename := "doc3.json", readResult := .ok ⟨none⟩ }],
       ["doc3.json: canonical slug missing"]) ∧
    containsSub "resolve".data "doc3.json: canonical slug missing".data = false ∧
    containsSub "submit".data "doc3.json: canonical slug missing".data = false := by
  refine ⟨fun slugF later1 later2 name e => ⟨rfl, rfl⟩,
    fun slugF later1 later2 name => ⟨rfl, rfl⟩, by decide, by decide, by decide⟩
